import Mathlib

/-!
Verification development for the VirtualJukebox sources.

The definitions below are shallow embeddings of the C++ sources:
Types/Result.h, SpotifyBackend.cpp (with its SPOTIFYCALL_WITH_REFRESH
macros and errorHandler), SpotifyAuthorization.cpp, SimpleScheduler.h and
RestEndpointHandlers.cpp.  Stateful member functions become explicit
state-passing functions; results of external HTTP/Spotify-API calls become
function parameters; machine integers carrying epoch seconds become Int.
-/

namespace VirtualJukebox

/-- Error codes of the core.  Types/Result.h in the sources declares
`AccessDenied, SessionExpired, FileNotFound, InvalidFormat, InvalidValue`;
the remaining members are required by their uses elsewhere in the sources
(the ERROR_TO_HTTP_STATUS table of RestEndpointHandlers.cpp, the
ConfigHandler tests using `KeyNotFound`, and SpotifyBackend.cpp using
`SpotifyAccessExpired`), so the enum the program compiles with contains
all of them. -/
inductive ErrorCode where
  | AccessDenied
  | SessionExpired
  | FileNotFound
  | InvalidFormat
  | InvalidValue
  | WrongPassword
  | KeyNotFound
  | NotImplemented
  | NotInitialized
  | SpotifyNotFound
  | SpotifyForbidden
  | SpotifyAccessDenied
  | SpotifyAccessExpired
  | SpotifyParseError
  | SpotifyAPIError
  | SpotifyBadRequest
  | SpotifyHttpTimeout
  | SpotifyNoDevice
  | AlreadyExists
  | DoesntExist
  deriving DecidableEq, Repr

/-- The error type of Types/Result.h: an `ErrorCode` plus a message. -/
structure Error where
  code : ErrorCode
  msg : String
  deriving DecidableEq, Repr

/-- `TResult<GOOD_TYPE> = std::variant<GOOD_TYPE, Error>` of Types/Result.h:
a two-alternative sum of the success type and `Error`. -/
inductive TResult (α : Type) where
  | good (v : α)
  | err (e : Error)
  deriving DecidableEq, Repr

/-- `TResultOpt = std::optional<Error>` of Types/Result.h: `none` is
success of a void operation, `some e` is its single error value. -/
abbrev TResultOpt : Type := Option Error

/-- `r.isGood` : the variant holds the success alternative. -/
def TResult.isGood {α : Type} : TResult α → Bool
  | .good _ => true
  | .err _ => false

/-- `r.isErr` : the variant holds the `Error` alternative. -/
def TResult.isErr {α : Type} : TResult α → Bool
  | .good _ => false
  | .err _ => true

/-!  Spotify-side data, from Types/GlobalTypes.h and the SpotifyApi types
as used by SpotifyBackend.cpp. -/

/-- `BaseTrack`: the immutable track descriptor built by the backend. -/
structure BaseTrack where
  trackId : String
  title : String
  album : String
  artist : String
  iconUri : String
  durationMs : Nat
  deriving DecidableEq, Repr

/-- `PlaybackTrack`: a track plus the live `isPlaying` / `progressMs`
transport state, as filled in by SpotifyBackend::getCurrentPlayback. -/
structure PlaybackTrack where
  trackId : String
  title : String
  album : String
  artist : String
  iconUri : String
  durationMs : Nat
  isPlaying : Bool
  progressMs : Nat
  deriving DecidableEq, Repr

/-- A Spotify album as read by SpotifyBackend.cpp: name plus image urls
(the first image is the biggest one). -/
structure SpotifyAlbum where
  name : String
  images : List String
  deriving DecidableEq, Repr

/-- A Spotify track object (`SpotifyApi::Track`) as read by
SpotifyBackend.cpp: name, uri, duration, album and artist names. -/
structure SpotifyTrack where
  name : String
  uri : String
  duration : Nat
  album : SpotifyAlbum
  artists : List String
  deriving DecidableEq, Repr

/-- A Spotify `Device` as used by setPlayback / setVolume. -/
structure Device where
  name : String
  id : String
  volume : Nat
  deriving DecidableEq, Repr

/-- A Spotify `Playback` object: the current playing track (if any),
the playing flag, progress and the active device. -/
structure Playback where
  currentPlayingTrack : Option SpotifyTrack
  isPlaying : Bool
  progressMs : Nat
  device : Device
  deriving DecidableEq, Repr

/-!  SpotifyBackend.cpp: the errorHandler and the two retry macros.
A Spotify API call is embedded as a function from the access token to its
result; `refreshResult` is the outcome of `mSpotifyAuth.refreshAccessToken()`
and `refreshedToken` the access token read back after a refresh. -/

/-- SpotifyBackend::errorHandler: on `SpotifyAccessExpired` it refreshes the
access token and returns the refresh outcome (`none` when the refresh went
well); any other error is returned unchanged. -/
def errorHandler (error : Error) (refreshResult : TResultOpt) : TResultOpt :=
  if error.code = ErrorCode.SpotifyAccessExpired then
    refreshResult
  else
    some error

/-- Outcome of a macro-wrapped API call: the result produced, the value the
local `token` variable holds afterwards, and how many times the underlying
API call ran. -/
structure CallOutcome (α : Type) where
  result : TResult α
  token : String
  calls : Nat
  deriving Repr

/-- The SPOTIFYCALL_WITH_REFRESH macro of SpotifyBackend.cpp: run the call;
on an error consult `errorHandler`; if the handler reports an error the
ORIGINAL error is returned; otherwise reload the token and run the call a
second time, returning the second error if it fails too. -/
def spotifyCallWithRefresh {α : Type} (call : String → TResult α)
    (token : String) (refreshResult : TResultOpt) (refreshedToken : String) :
    CallOutcome α :=
  match call token with
  | .good v => ⟨.good v, token, 1⟩
  | .err e =>
    match errorHandler e refreshResult with
    | some _ => ⟨.err e, token, 1⟩
    | none =>
      match call refreshedToken with
      | .good v => ⟨.good v, refreshedToken, 2⟩
      | .err e2 => ⟨.err e2, refreshedToken, 2⟩

/-- Outcome of a macro-wrapped optional-result API call. -/
structure CallOutcomeOpt where
  result : TResultOpt
  token : String
  calls : Nat
  deriving Repr

/-- The SPOTIFYCALL_WITH_REFRESH_OPT macro of SpotifyBackend.cpp: like
`spotifyCallWithRefresh` for `TResultOpt` calls, except that on an
unrecoverable first failure it returns the errorHandler result. -/
def spotifyCallWithRefreshOpt (call : String → TResultOpt)
    (token : String) (refreshResult : TResultOpt) (refreshedToken : String) :
    CallOutcomeOpt :=
  match call token with
  | none => ⟨none, token, 1⟩
  | some e =>
    match errorHandler e refreshResult with
    | some e2 => ⟨some e2, token, 1⟩
    | none =>
      match call refreshedToken with
      | none => ⟨none, refreshedToken, 2⟩
      | some e2 => ⟨some e2, refreshedToken, 2⟩

/-!  SpotifyAuthorization.cpp. -/

/-- A Spotify OAuth token as held by SpotifyAuthorization (`mToken`). -/
structure Token where
  accessToken : String
  refreshToken : String
  tokenType : String
  scope : String
  expiresIn : Int
  deriving DecidableEq, Repr

/-- The mutable state of SpotifyAuthorization relevant to the token
refresh path: the stored token and the epoch second it was received at. -/
structure AuthState where
  mToken : Token
  mTokenReceiveTime : Int
  deriving DecidableEq, Repr

/-- SpotifyAuthorization::getExpiresAt: receive time plus expires-in,
reduced by 10 seconds to be safe against network delays. -/
def AuthState.getExpiresAt (s : AuthState) : Int :=
  s.mTokenReceiveTime + s.mToken.expiresIn - 10

/-- SpotifyAuthorization::refreshAccessToken, with the two
`system_clock::now()` reads passed as `now` (the expiry check) and `now2`
(the receive-time stamp), and the provider call
`SpotifyAPI::refreshAccessToken` passed as its result `apiResult`.
Returns the function result, the state afterwards, and whether the
provider was contacted. -/
def AuthState.refreshAccessToken (s : AuthState) (now now2 : Int)
    (apiResult : TResult Token) : TResultOpt × AuthState × Bool :=
  if s.mToken.refreshToken = "" then
    (some ⟨ErrorCode.InvalidValue, "No refresh token available"⟩, s, false)
  else if now < s.getExpiresAt then
    (none, s, false)
  else
    match apiResult with
    | .err e => (some e, s, true)
    | .good token =>
      let token2 := { token with refreshToken := s.mToken.refreshToken }
      (none, ⟨token2, now2⟩, true)

/-- The outcome of `mWebserver->start(false)` in
SpotifyAuthorization::startServer: either it returns, or it throws an
exception carrying a message (`e.what()`). -/
inductive StartOutcome where
  | ok
  | throws (msg : String)
  deriving DecidableEq, Repr

/-- SpotifyAuthorization::startServer: propagate a config-reading error,
then start the webserver; a thrown exception is caught and converted into
an `Error` with code `NotInitialized` and the exception message. -/
def startServer (readConfigRet : TResultOpt) (start : StartOutcome) :
    TResultOpt :=
  match readConfigRet with
  | some e => some e
  | none =>
    match start with
    | .ok => none
    | .throws msg => some ⟨ErrorCode.NotInitialized, msg⟩

/-!  SpotifyBackend.cpp member functions.  Each Spotify API endpoint the
function calls is a parameter; the commands that reach the Spotify service
(`transferUsersPlayback`, `play`, `pause`) are recorded in the result so
that frame properties can be stated. -/

/-- The artist-string accumulation loop of SpotifyBackend.cpp: artist names
joined with a wedge separator, empty for no artists. -/
def joinArtists : List String → String
  | [] => ""
  | a :: rest => rest.foldl (fun acc x => acc ++ " & " ++ x) a

/-- The icon choice of SpotifyBackend.cpp: the first album image when one
exists (on first place is the biggest one), otherwise the empty string. -/
def headIcon : List String → String
  | [] => ""
  | u :: _ => u

/-- The PlaybackTrack assembled by SpotifyBackend::getCurrentPlayback from
a Spotify `Playback` whose current playing track is present. -/
def mkPlaybackTrack (playback : Playback) (t : SpotifyTrack) : PlaybackTrack :=
  { trackId := t.uri
    artist := joinArtists t.artists
    iconUri := headIcon t.album.images
    durationMs := t.duration
    album := t.album.name
    isPlaying := playback.isPlaying
    title := t.name
    progressMs := playback.progressMs }

/-- SpotifyBackend::getCurrentPlayback: query the current playback through
the refresh macro; absent playback or an absent current playing track give
a successful `none`; otherwise the snapshot `mkPlaybackTrack` is returned. -/
def SpotifyBackend.getCurrentPlayback
    (apiGetCurrentPlayback : String → TResult (Option Playback))
    (token : String) (refreshResult : TResultOpt) (refreshedToken : String) :
    TResult (Option PlaybackTrack) :=
  match (spotifyCallWithRefresh apiGetCurrentPlayback token refreshResult
      refreshedToken).result with
  | .err e => .err e
  | .good none => .good none
  | .good (some playback) =>
    match playback.currentPlayingTrack with
    | none => .good none
    | some t => .good (some (mkPlaybackTrack playback t))

/-- SpotifyBackend::pause: read the current playback (`playbackRes` is the
result of `getCurrentPlayback()`); on error propagate it; when no playback
exists or it is already not playing, succeed without calling the API;
otherwise issue `mSpotifyAPI.pause` through the refresh macro.  The second
component counts the pause commands sent to the service. -/
def SpotifyBackend.pause
    (playbackRes : TResult (Option PlaybackTrack))
    (apiPause : String → TResultOpt)
    (token : String) (refreshResult : TResultOpt) (refreshedToken : String) :
    TResultOpt × Nat :=
  match playbackRes with
  | .err e => (some e, 0)
  | .good none => (none, 0)
  | .good (some t) =>
    if !t.isPlaying then (none, 0)
    else
      let o := spotifyCallWithRefreshOpt apiPause token refreshResult
        refreshedToken
      (o.result, o.calls)

/-- One pause interaction against a Spotify service whose observable state
is the optional current playback track: `getCurrentPlayback` reports that
state faithfully, and every pause command that reaches the service clears
the `isPlaying` flag.  Returns (result, service state afterwards, number of
pause commands issued). -/
def pauseStep (w : Option PlaybackTrack) :
    TResultOpt × Option PlaybackTrack × Nat :=
  let o := SpotifyBackend.pause (.good w) (fun _ => none) "tok" none "tok"
  (o.1,
    (if o.2 = 0 then w else w.map fun t => { t with isPlaying := false }),
    o.2)

/-- A command sent to the Spotify service by setPlayback. -/
inductive PlaybackCmd where
  | transfer (device : Device)
  | play (device : Device) (trackId : String)
  deriving DecidableEq, Repr

/-- `PlaybackCmd.device` : the device a command targets. -/
def PlaybackCmd.device : PlaybackCmd → Device
  | .transfer d => d
  | .play d _ => d

/-- The device choice of SpotifyBackend::setPlayback among a non-empty
device list headed by `d0`, given the `Spotify`/`playingDevice` config
lookup result: `devices[0]` first, replaced by the first device whose name
equals the configured value when the lookup produced a string and such a
device exists. -/
def selectDevice (devices : List Device) (d0 : Device)
    (playingDeviceRes : TResult String) : Device :=
  match playingDeviceRes with
  | .good v => (devices.find? fun d => d.name == v).getD d0
  | .err _ => d0

/-- SpotifyBackend::setPlayback: fetch the available devices through the
refresh macro; an empty list is the `SpotifyNoDevice` error; otherwise the
target device is the one whose name equals the configured
`Spotify`/`playingDevice` value if present in the list, else the first
device.  When no playback exists the users playback is first transferred to
the target device, then `play(trackId, device)` runs through the refresh
macro.  (The unused `getCurrentPlayback` re-read before the play call has
no observable effect and is not modelled.)  The second component lists the
commands that reached the service. -/
def SpotifyBackend.setPlayback
    (track : BaseTrack)
    (apiGetAvailableDevices : String → TResult (List Device))
    (playingDeviceRes : TResult String)
    (apiGetCurrentPlayback : String → TResult (Option Playback))
    (apiTransferUsersPlayback : String → Device → TResultOpt)
    (apiPlay : String → String → Device → TResultOpt)
    (token0 : String) (refreshResult : TResultOpt) (refreshedToken : String) :
    TResultOpt × List PlaybackCmd :=
  let o1 := spotifyCallWithRefresh apiGetAvailableDevices token0 refreshResult
    refreshedToken
  match o1.result with
  | .err e => (some e, [])
  | .good devices =>
    match devices with
    | [] =>
      (some ⟨ErrorCode.SpotifyNoDevice,
        "No devices for playing the track available"⟩, [])
    | d0 :: rest =>
      let device := selectDevice (d0 :: rest) d0 playingDeviceRes
      let o2 := spotifyCallWithRefresh apiGetCurrentPlayback o1.token
        refreshResult refreshedToken
      match o2.result with
      | .err e => (some e, [])
      | .good (some _) =>
        let o3 := spotifyCallWithRefreshOpt
          (fun tk => apiPlay tk track.trackId device) o2.token refreshResult
          refreshedToken
        (o3.result, List.replicate o3.calls (.play device track.trackId))
      | .good none =>
        match apiTransferUsersPlayback o2.token device with
        | some e => (some e, [.transfer device])
        | none =>
          let o3 := spotifyCallWithRefreshOpt
            (fun tk => apiPlay tk track.trackId device) o2.token refreshResult
            refreshedToken
          (o3.result,
            .transfer device ::
              List.replicate o3.calls (.play device track.trackId))

/-!  SimpleScheduler.h.  The thread body SimpleScheduler.cpp is not among
the sources; the member declarations below come from the header, and the
bodies marked `Modelled from the spec:` follow the spec where the header
leaves them undetermined. -/

/-- The scheduler state enumeration of SimpleScheduler.h. -/
inductive SchedulerState where
  | Idle
  | PlayNextSong
  | CheckPlaying
  | Playing
  deriving DecidableEq, Repr

/-- The SimpleScheduler members relevant to the verified claims, from
SimpleScheduler.h.  `backendPolls` instruments the model: it counts the
calls the scheduler has made into `MusicBackend::getCurrentPlayback`, so
that the absence of a fresh poll is statable. -/
structure SimpleScheduler where
  mSchedulerState : SchedulerState
  mLastPlaybackTrack : TResult (Option PlaybackTrack)
  cScheduleIntervalTimeMs : Nat
  mCloseThread : Bool
  backendPolls : Nat
  deriving DecidableEq, Repr

/-- Modelled from the spec: SimpleScheduler.cpp (constructor body and
thread function) is not among the sources; per the spec the polling period
is configurable, and the header carries the default member initializer
`int const cScheduleIntervalTimeMs = 1000` together with
`mSchedulerState = SchedulerState::Idle`, `mCloseThread = false` and a
default-constructed `mLastPlaybackTrack` (the empty optional). -/
def SimpleScheduler.init (intervalMs : Nat) : SimpleScheduler :=
  { mSchedulerState := .Idle
    mLastPlaybackTrack := .good none
    cScheduleIntervalTimeMs := intervalMs
    mCloseThread := false
    backendPolls := 0 }

/-- A SimpleScheduler built with the default polling period of the header
initializer. -/
def SimpleScheduler.initDefault : SimpleScheduler :=
  SimpleScheduler.init 1000

/-- Modelled from the spec: the body of SimpleScheduler::getLastPlayback is
not among the sources; per the spec it returns the cached result of the
most recent successful poll (`mLastPlaybackTrack`) and triggers no fresh
poll and no state change.  Returned as (read value, scheduler afterwards). -/
def SimpleScheduler.getLastPlayback (s : SimpleScheduler) :
    TResult (Option PlaybackTrack) × SimpleScheduler :=
  (s.mLastPlaybackTrack, s)

/-- The two scheduler mutexes declared in SimpleScheduler.h:
`std::shared_mutex mMtxPlayback` and
`std::shared_mutex mMtxModifySchedulerState`. -/
inductive SchedulerLock where
  | mtxPlayback
  | mtxModifySchedulerState
  deriving DecidableEq, Repr

/-- Modelled from the spec: the lock acquisitions live in the absent
SimpleScheduler.cpp; per the spec the cached last-playback snapshot is
guarded by its own lock (`mMtxPlayback`), so a `getLastPlayback` read
acquires only that one. -/
def locksOfGetLastPlayback : List SchedulerLock :=
  [.mtxPlayback]

/-- Modelled from the spec: per the spec the state-machine transitions are
guarded by the scheduler internal state transition lock
(`mMtxModifySchedulerState`), distinct from the snapshot lock. -/
def locksOfStateTransition : List SchedulerLock :=
  [.mtxModifySchedulerState]

/-- Lock-contention model: one operation can block another exactly when
their acquired lock sets share a lock. -/
def locksOverlap (a b : List SchedulerLock) : Bool :=
  a.any fun l => b.contains l

/-!  RestEndpointHandlers.cpp: the error-to-HTTP-status table. -/

/-- The ERROR_TO_HTTP_STATUS table of RestEndpointHandlers.cpp as a lookup;
`none` for codes the table does not list. -/
def errorToHttpStatus : ErrorCode → Option Nat
  | .WrongPassword => some 401
  | .AccessDenied => some 403
  | .SessionExpired => some 440
  | .FileNotFound => some 404
  | .KeyNotFound => some 404
  | .InvalidFormat => some 422
  | .InvalidValue => some 400
  | .NotImplemented => some 500
  | .NotInitialized => some 400
  | .SpotifyNotFound => some 404
  | .SpotifyForbidden => some 403
  | .SpotifyAccessDenied => some 403
  | .SpotifyParseError => some 400
  | .SpotifyAPIError => some 502
  | .SpotifyBadRequest => some 400
  | .SpotifyHttpTimeout => some 400
  | .SpotifyNoDevice => some 404
  | .AlreadyExists => some 400
  | .DoesntExist => some 400
  | .SpotifyAccessExpired => none

/-- mapErrorToResponse of RestEndpointHandlers.cpp, status part: the mapped
status code, with unhandled ErrorCodes triggering an internal server
error (500). -/
def mapErrorToResponseStatus (e : Error) : Nat :=
  (errorToHttpStatus e.code).getD 500

/-!  Theorems. -/

/-- Claim C1: for every backend operation wrapped in the
SPOTIFYCALL_WITH_REFRESH / SPOTIFYCALL_WITH_REFRESH_OPT macros (queryTracks,
setPlayback, getCurrentPlayback, play, pause, getVolume, setVolume,
createBaseTrack all route their API calls through them), a failure whose
code is not `SpotifyAccessExpired` is returned immediately after a single
API call, with no retry; a `SpotifyAccessExpired` failure followed by a
successful token refresh leads to exactly one retry with the refreshed
token (two API calls in total), whose own result — error or success — is
what the operation returns. -/
theorem claim_C1_access_expired_retry {α : Type}
    (call : String → TResult α) (callO : String → TResultOpt)
    (token newTok : String) (e : Error) (refreshResult : TResultOpt) :
    (call token = .err e → e.code ≠ ErrorCode.SpotifyAccessExpired →
      spotifyCallWithRefresh call token refreshResult newTok =
        ⟨.err e, token, 1⟩) ∧
    (call token = .err e → e.code = ErrorCode.SpotifyAccessExpired →
      spotifyCallWithRefresh call token none newTok =
        ⟨call newTok, newTok, 2⟩) ∧
    (callO token = some e → e.code ≠ ErrorCode.SpotifyAccessExpired →
      spotifyCallWithRefreshOpt callO token refreshResult newTok =
        ⟨some e, token, 1⟩) ∧
    (callO token = some e → e.code = ErrorCode.SpotifyAccessExpired →
      spotifyCallWithRefreshOpt callO token none newTok =
        ⟨callO newTok, newTok, 2⟩) := by
  refine ⟨fun h1 h2 => ?_, fun h1 h2 => ?_, fun h1 h2 => ?_, fun h1 h2 => ?_⟩
  · simp [spotifyCallWithRefresh, h1, errorHandler, h2]
  · simp only [spotifyCallWithRefresh, h1, errorHandler, h2, if_pos]
    cases call newTok <;> rfl
  · simp [spotifyCallWithRefreshOpt, h1, errorHandler, h2]
  · simp only [spotifyCallWithRefreshOpt, h1, errorHandler, h2, if_pos]
    cases callO newTok <;> rfl

/-- Witness for C1 at concrete inputs: a call failing with
`SpotifyAccessExpired` on the old token and succeeding on the refreshed one
is retried once and succeeds; a call failing with `InvalidValue` is
returned immediately with a single API call. -/
theorem claim_C1_witness :
    spotifyCallWithRefresh
        (fun t => if t = "new" then .good 5 else
          .err ⟨ErrorCode.SpotifyAccessExpired, "expired"⟩)
        "old" none "new" = ⟨.good 5, "new", 2⟩ ∧
    spotifyCallWithRefresh
        (fun _ => (.err ⟨ErrorCode.InvalidValue, "bad"⟩ : TResult Nat))
        "old" none "new" = ⟨.err ⟨ErrorCode.InvalidValue, "bad"⟩, "old", 1⟩ := by
  constructor
  · have h := (claim_C1_access_expired_retry
      (fun t => if t = "new" then .good 5 else
        .err ⟨ErrorCode.SpotifyAccessExpired, "expired"⟩)
      (fun _ => none) "old" "new" ⟨ErrorCode.SpotifyAccessExpired, "expired"⟩
      none).2.1 (by decide) rfl
    simpa using h
  · exact (claim_C1_access_expired_retry
      (fun _ => (.err ⟨ErrorCode.InvalidValue, "bad"⟩ : TResult Nat))
      (fun _ => none) "old" "new" ⟨ErrorCode.InvalidValue, "bad"⟩
      none).1 rfl (by decide)

/-- Claim C2: `TResult` holds exactly one of a success value or a single
`Error` (it is a two-alternative sum), and the startServer path converts an
exception thrown by the webserver start into an `Error` return with code
`NotInitialized` carrying the exception message — no exception escapes. -/
theorem claim_C2_result_sum_no_exception :
    (∀ (α : Type) (r : TResult α),
      (r.isGood || r.isErr) = true ∧ (r.isGood && r.isErr) = false) ∧
    (∀ msg, startServer none (.throws msg) =
      some ⟨ErrorCode.NotInitialized, msg⟩) ∧
    (∀ e start, startServer (some e) start = some e) ∧
    startServer none .ok = none := by
  refine ⟨fun α r => ?_, fun msg => rfl, fun e start => rfl, rfl⟩
  cases r <;> exact ⟨rfl, rfl⟩

/-- Witness for C2 at concrete inputs: a thrown webserver start is turned
into the `NotInitialized` error value, and a success result holds exactly
the success alternative. -/
theorem claim_C2_witness :
    startServer none (.throws "boom") =
      some ⟨ErrorCode.NotInitialized, "boom"⟩ ∧
    (TResult.good 3).isGood = true := by
  refine ⟨claim_C2_result_sum_no_exception.2.1 "boom", ?_⟩
  exact (claim_C2_result_sum_no_exception.1 Nat (.good 3)).1 |> fun _ => rfl

/-- Claim C3: SessionExpired, AccessDenied, AlreadyExists, DoesntExist,
InvalidValue and InvalidFormat are pairwise distinct members of the
ErrorCode type, and each has its own entry in the error-to-HTTP-status
table, so each taxonomy failure is reported as a distinguishable error
value. -/
theorem claim_C3_error_codes_distinct :
    ([ErrorCode.SessionExpired, ErrorCode.AccessDenied,
      ErrorCode.AlreadyExists, ErrorCode.DoesntExist,
      ErrorCode.InvalidValue, ErrorCode.InvalidFormat].Pairwise (· ≠ ·)) ∧
    errorToHttpStatus ErrorCode.SessionExpired = some 440 ∧
    errorToHttpStatus ErrorCode.AccessDenied = some 403 ∧
    errorToHttpStatus ErrorCode.AlreadyExists = some 400 ∧
    errorToHttpStatus ErrorCode.DoesntExist = some 400 ∧
    errorToHttpStatus ErrorCode.InvalidValue = some 400 ∧
    errorToHttpStatus ErrorCode.InvalidFormat = some 422 := by
  refine ⟨?_, rfl, rfl, rfl, rfl, rfl, rfl⟩
  decide

/-- Claim C4: the scheduler state type has exactly the four states Idle,
PlayNextSong, CheckPlaying and Playing, and the polling period is the
construction parameter with default 1000 ms. -/
theorem claim_C4_states_and_interval :
    (∀ s : SchedulerState,
      s = .Idle ∨ s = .PlayNextSong ∨ s = .CheckPlaying ∨ s = .Playing) ∧
    (∀ ms, (SimpleScheduler.init ms).cScheduleIntervalTimeMs = ms) ∧
    SimpleScheduler.initDefault.cScheduleIntervalTimeMs = 1000 := by
  refine ⟨fun s => ?_, fun ms => rfl, rfl⟩
  cases s
  · exact Or.inl rfl
  · exact Or.inr (Or.inl rfl)
  · exact Or.inr (Or.inr (Or.inl rfl))
  · exact Or.inr (Or.inr (Or.inr rfl))

/-- Claim C5: getLastPlayback returns the cached result of the most recent
successful poll and is a pure read: no scheduler field changes, the
backend-poll count stays the same (no fresh poll), and the returned
scheduler is the input scheduler. -/
theorem claim_C5_getLastPlayback_pure_read (s : SimpleScheduler) :
    (s.getLastPlayback).1 = s.mLastPlaybackTrack ∧
    (s.getLastPlayback).2.mSchedulerState = s.mSchedulerState ∧
    (s.getLastPlayback).2.mLastPlaybackTrack = s.mLastPlaybackTrack ∧
    (s.getLastPlayback).2.cScheduleIntervalTimeMs =
      s.cScheduleIntervalTimeMs ∧
    (s.getLastPlayback).2.mCloseThread = s.mCloseThread ∧
    (s.getLastPlayback).2.backendPolls = s.backendPolls ∧
    (s.getLastPlayback).2 = s :=
  ⟨rfl, rfl, rfl, rfl, rfl, rfl, rfl⟩

/-- Claim C6: on a successful underlying query, getCurrentPlayback returns
an absent value exactly when the backend reports no active playback or no
current playing track; otherwise it returns the snapshot carrying the
current track with its isPlaying flag and progressMs. -/
theorem claim_C6_current_playback_optional
    (apiGetCurrentPlayback : String → TResult (Option Playback))
    (token newTok : String) (refreshResult : TResultOpt)
    (pb : Option Playback)
    (h : (spotifyCallWithRefresh apiGetCurrentPlayback token refreshResult
      newTok).result = .good pb) :
    (SpotifyBackend.getCurrentPlayback apiGetCurrentPlayback token
        refreshResult newTok = .good none ↔
      (pb = none ∨ ∃ p, pb = some p ∧ p.currentPlayingTrack = none)) ∧
    (∀ p t, pb = some p → p.currentPlayingTrack = some t →
      SpotifyBackend.getCurrentPlayback apiGetCurrentPlayback token
          refreshResult newTok = .good (some (mkPlaybackTrack p t)) ∧
        (mkPlaybackTrack p t).isPlaying = p.isPlaying ∧
        (mkPlaybackTrack p t).progressMs = p.progressMs ∧
        (mkPlaybackTrack p t).trackId = t.uri ∧
        (mkPlaybackTrack p t).title = t.name) := by
  constructor
  · unfold SpotifyBackend.getCurrentPlayback
    rw [h]
    match pb with
    | none => simp
    | some p =>
      match hc : p.currentPlayingTrack with
      | none => simp [hc]
      | some t => simp [hc]
  · intro p t hp ht
    subst hp
    unfold SpotifyBackend.getCurrentPlayback
    rw [h]
    exact ⟨by simp [ht], rfl, rfl, rfl, rfl⟩

/-- Witness for C6 at a concrete input: an API that reports a playing
track yields the assembled snapshot. -/
theorem claim_C6_witness :
    SpotifyBackend.getCurrentPlayback
        (fun _ => .good (some
          { currentPlayingTrack := some
              { name := "song", uri := "spotify:track:abc", duration := 90,
                album := { name := "alb", images := ["img"] },
                artists := ["ann", "bob"] }
            isPlaying := true
            progressMs := 17
            device := { name := "dev", id := "d1", volume := 40 } }))
        "tok" none "tok" =
      .good (some
        { trackId := "spotify:track:abc", title := "song", album := "alb",
          artist := "ann & bob", iconUri := "img", durationMs := 90,
          isPlaying := true, progressMs := 17 }) := by
  have h := (claim_C6_current_playback_optional
    (fun _ => .good (some
      { currentPlayingTrack := some
          { name := "song", uri := "spotify:track:abc", duration := 90,
            album := { name := "alb", images := ["img"] },
            artists := ["ann", "bob"] }
        isPlaying := true
        progressMs := 17
        device := { name := "dev", id := "d1", volume := 40 } }))
    "tok" "tok" none _ rfl).2 _ _ rfl rfl
  exact h.1.trans (by simp [mkPlaybackTrack, joinArtists, headIcon])

/-- Claim C7: the cached last-playback snapshot lock and the scheduler
state-transition lock are distinct mutexes, and the lock sets acquired by
a getLastPlayback read and by a state transition do not overlap, so
neither can block the other under lock contention. -/
theorem claim_C7_distinct_locks :
    locksOverlap locksOfGetLastPlayback locksOfStateTransition = false ∧
    locksOverlap locksOfStateTransition locksOfGetLastPlayback = false ∧
    SchedulerLock.mtxPlayback ≠ SchedulerLock.mtxModifySchedulerState := by
  decide

/-- Claim C8: refreshAccessToken returns an InvalidValue error without side
effects when the stored refresh token is empty; succeeds without contacting
the provider and without changing state when the current time is strictly
before receive time plus expires-in minus the 10 second margin; and on a
successful provider refresh stores the new token with the previous refresh
token carried over, stamping the receive time. -/
theorem claim_C8_refresh_token_cases (s : AuthState) (now now2 : Int)
    (apiResult : TResult Token) :
    s.getExpiresAt = s.mTokenReceiveTime + s.mToken.expiresIn - 10 ∧
    (s.mToken.refreshToken = "" →
      s.refreshAccessToken now now2 apiResult =
        (some ⟨ErrorCode.InvalidValue, "No refresh token available"⟩, s,
          false)) ∧
    (s.mToken.refreshToken ≠ "" → now < s.getExpiresAt →
      s.refreshAccessToken now now2 apiResult = (none, s, false)) ∧
    (∀ t, s.mToken.refreshToken ≠ "" → ¬ now < s.getExpiresAt →
      apiResult = .good t →
      s.refreshAccessToken now now2 apiResult =
        (none,
          ⟨{ t with refreshToken := s.mToken.refreshToken }, now2⟩,
          true)) := by
  refine ⟨rfl, fun h1 => ?_, fun h1 h2 => ?_, fun t h1 h2 h3 => ?_⟩
  · simp [AuthState.refreshAccessToken, h1]
  · simp [AuthState.refreshAccessToken, h1, h2]
  · simp [AuthState.refreshAccessToken, h1, h2, h3]

/-- Witness for C8 at concrete inputs: an expired token with a non-empty
refresh token is replaced by the provider token with the old refresh token
carried over, and a not-yet-expired token is left alone without contacting
the provider. -/
theorem claim_C8_witness :
    (AuthState.refreshAccessToken
        ⟨⟨"acc", "ref", "Bearer", "sc", 3600⟩, 1000⟩ 5000 5001
        (.good ⟨"acc2", "", "Bearer", "sc", 3600⟩) =
      (none, ⟨⟨"acc2", "ref", "Bearer", "sc", 3600⟩, 5001⟩, true)) ∧
    (AuthState.refreshAccessToken
        ⟨⟨"acc", "ref", "Bearer", "sc", 3600⟩, 1000⟩ 1500 1501
        (.good ⟨"acc2", "", "Bearer", "sc", 3600⟩) =
      (none, ⟨⟨"acc", "ref", "Bearer", "sc", 3600⟩, 1000⟩, false)) := by
  constructor
  · exact (claim_C8_refresh_token_cases
      ⟨⟨"acc", "ref", "Bearer", "sc", 3600⟩, 1000⟩ 5000 5001
      (.good ⟨"acc2", "", "Bearer", "sc", 3600⟩)).2.2.2
      ⟨"acc2", "", "Bearer", "sc", 3600⟩ (by decide) (by decide) rfl
  · exact (claim_C8_refresh_token_cases
      ⟨⟨"acc", "ref", "Bearer", "sc", 3600⟩, 1000⟩ 1500 1501
      (.good ⟨"acc2", "", "Bearer", "sc", 3600⟩)).2.2.1
      (by decide) (by decide)

/-- Claim C9: pause succeeds without issuing any pause command whenever the
current playback is absent or already not playing; consequently, against a
service whose pause command clears the playing flag, a second pause right
after a first one issues no command, succeeds, and leaves the service state
exactly as after the first call. -/
theorem claim_C9_pause_idempotent
    (apiPause : String → TResultOpt) (token newTok : String)
    (refreshResult : TResultOpt) :
    SpotifyBackend.pause (.good none) apiPause token refreshResult newTok =
      (none, 0) ∧
    (∀ t, t.isPlaying = false →
      SpotifyBackend.pause (.good (some t)) apiPause token refreshResult
        newTok = (none, 0)) ∧
    (∀ w, pauseStep (pauseStep w).2.1 = (none, (pauseStep w).2.1, 0)) := by
  refine ⟨rfl, fun t ht => ?_, fun w => ?_⟩
  · simp [SpotifyBackend.pause, ht]
  · match w with
    | none => rfl
    | some t =>
      match ht : t.isPlaying with
      | false =>
        simp [pauseStep, SpotifyBackend.pause, ht]
      | true =>
        simp [pauseStep, SpotifyBackend.pause, ht, spotifyCallWithRefreshOpt]

/-- Witness for C9 at a concrete input: pausing an already-paused playback
issues no command and succeeds. -/
theorem claim_C9_witness :
    SpotifyBackend.pause
        (.good (some
          { trackId := "id", title := "t", album := "a", artist := "ar",
            iconUri := "i", durationMs := 10, isPlaying := false,
            progressMs := 3 }))
        (fun _ => none) "tok" none "tok" = (none, 0) :=
  (claim_C9_pause_idempotent (fun _ => none) "tok" "tok" none).2.1
    { trackId := "id", title := "t", album := "a", artist := "ar",
      iconUri := "i", durationMs := 10, isPlaying := false,
      progressMs := 3 } rfl

/-- Claim C10: on a successful device query, setPlayback fails with
SpotifyNoDevice and issues no command when the device list is empty;
otherwise every command it issues targets the selected device, which is
the first listed device whose name equals the configured
playingDevice value when the config lookup produced a string and a match
exists, and the first listed device otherwise. -/
theorem claim_C10_setPlayback_device
    (track : BaseTrack)
    (apiGetAvailableDevices : String → TResult (List Device))
    (playingDeviceRes : TResult String)
    (apiGetCurrentPlayback : String → TResult (Option Playback))
    (apiTransferUsersPlayback : String → Device → TResultOpt)
    (apiPlay : String → String → Device → TResultOpt)
    (token0 newTok : String) (refreshResult : TResultOpt)
    (devices : List Device)
    (h : (spotifyCallWithRefresh apiGetAvailableDevices token0 refreshResult
      newTok).result = .good devices) :
    (devices = [] →
      SpotifyBackend.setPlayback track apiGetAvailableDevices
          playingDeviceRes apiGetCurrentPlayback apiTransferUsersPlayback
          apiPlay token0 refreshResult newTok =
        (some ⟨ErrorCode.SpotifyNoDevice,
          "No devices for playing the track available"⟩, [])) ∧
    (∀ d0 rest, devices = d0 :: rest →
      ∀ c ∈ (SpotifyBackend.setPlayback track apiGetAvailableDevices
          playingDeviceRes apiGetCurrentPlayback apiTransferUsersPlayback
          apiPlay token0 refreshResult newTok).2,
        c.device = selectDevice devices d0 playingDeviceRes) ∧
    (∀ v d d0, playingDeviceRes = .good v →
      (devices.find? fun dd => dd.name == v) = some d →
      selectDevice devices d0 playingDeviceRes = d) ∧
    (∀ v d0, playingDeviceRes = .good v →
      (devices.find? fun dd => dd.name == v) = none →
      selectDevice devices d0 playingDeviceRes = d0) ∧
    (∀ e d0, playingDeviceRes = .err e →
      selectDevice devices d0 playingDeviceRes = d0) := by
  refine ⟨fun hd => ?_, fun d0 rest hd c hc => ?_,
    fun v d d0 hv hf => ?_, fun v d0 hv hf => ?_, fun e d0 hv => ?_⟩
  · subst hd
    simp only [SpotifyBackend.setPlayback, h]
  · subst hd
    simp only [SpotifyBackend.setPlayback, h] at hc
    rcases h2 : (spotifyCallWithRefresh apiGetCurrentPlayback
        (spotifyCallWithRefresh apiGetAvailableDevices token0 refreshResult
          newTok).token refreshResult newTok).result with pb | e2
    · rcases pb with _ | p
      · simp only [h2] at hc
        rcases h3 : apiTransferUsersPlayback
            (spotifyCallWithRefresh apiGetCurrentPlayback
              (spotifyCallWithRefresh apiGetAvailableDevices token0
                refreshResult newTok).token refreshResult newTok).token
            (selectDevice (d0 :: rest) d0 playingDeviceRes) with _ | e3
        · simp only [h3, List.mem_cons] at hc
          rcases hc with hc | hc
          · subst hc; rfl
          · have := List.eq_of_mem_replicate hc
            subst this; rfl
        · simp only [h3, List.mem_singleton] at hc
          subst hc; rfl
      · simp only [h2] at hc
        have := List.eq_of_mem_replicate hc
        subst this; rfl
    · simp only [h2] at hc
      simp at hc
  · simp [selectDevice, hv, hf]
  · simp [selectDevice, hv, hf]
  · simp [selectDevice, hv]

/-- Witness for C10 at concrete inputs: with two devices and the config
naming the second one, the issued play command targets that device, and
with an empty device list the call fails with SpotifyNoDevice issuing no
command. -/
theorem claim_C10_witness :
    (PlaybackCmd.play ⟨"B", "idB", 20⟩ "tid").device =
      selectDevice [⟨"A", "idA", 10⟩, ⟨"B", "idB", 20⟩] ⟨"A", "idA", 10⟩
        (.good "B") ∧
    SpotifyBackend.setPlayback
        ⟨"tid", "t", "al", "ar", "ic", 5⟩
        (fun _ => .good []) (.good "B") (fun _ => .good none)
        (fun _ _ => none) (fun _ _ _ => none) "tok" none "tok" =
      (some ⟨ErrorCode.SpotifyNoDevice,
        "No devices for playing the track available"⟩, []) := by
  constructor
  · exact (claim_C10_setPlayback_device
      ⟨"tid", "t", "al", "ar", "ic", 5⟩
      (fun _ => .good [⟨"A", "idA", 10⟩, ⟨"B", "idB", 20⟩])
      (.good "B") (fun _ => .good none) (fun _ _ => none)
      (fun _ _ _ => none) "tok" "tok" none
      [⟨"A", "idA", 10⟩, ⟨"B", "idB", 20⟩] rfl).2.1
      ⟨"A", "idA", 10⟩ [⟨"B", "idB", 20⟩] rfl
      (PlaybackCmd.play ⟨"B", "idB", 20⟩ "tid") (by decide)
  · exact (claim_C10_setPlayback_device
      ⟨"tid", "t", "al", "ar", "ic", 5⟩
      (fun _ => .good []) (.good "B") (fun _ => .good none)
      (fun _ _ => none) (fun _ _ _ => none) "tok" "tok" none
      [] rfl).1 rfl

end VirtualJukebox
